import Mathlib

/-!
Shallow embedding of the multi-signal field verification engine
(`src/email_validator.py`, `src/web_utils.py`, `src/openai_verification.py`,
`src/data_verification.py`).

External effects (DNS, HTTP, search providers, the OpenAI API, Python's
string `hash`) are modelled as oracle fields of a `World` structure; the
module-level mutable caches and the quota breaker flag are threaded
explicitly as state.  Every embedded function also reports the number of
external calls it issued, so that "no external call" claims are statable.
Python exceptions are modelled with `Except String`; a raising code path is
an `Except.error`, and the source's `try/except` blocks become explicit
matches on that result.  Pandas cell values are `PyVal := Option String`
(`none` = NaN); strings are ASCII in all scenarios of interest, so Python's
`str.lower`, `str.isalnum` and friends are embedded by their ASCII
restrictions.
-/

namespace DataVerif

/-! ### Generic string and association-list helpers -/

/-- `leadsWithL n h` is true when the list `n` is an initial segment of `h`
(Python `str.startswith` at the list-of-characters level). -/
def leadsWithL : List Char → List Char → Bool
  | [], _ => true
  | _ :: _, [] => false
  | a :: as, b :: bs => a == b && leadsWithL as bs

/-- `hasSubL n h` is true when `n` occurs contiguously inside `h`
(Python `n in h` at the list-of-characters level). -/
def hasSubL (needle : List Char) : List Char → Bool
  | [] => leadsWithL needle []
  | c :: rest => leadsWithL needle (c :: rest) || hasSubL needle rest

/-- Python `needle in hay` for strings. -/
def hasSub (hay needle : String) : Bool := hasSubL needle.data hay.data

/-- Python `s.startswith(pre)`. -/
def pyStartsWith (s pre : String) : Bool := leadsWithL pre.data s.data

/-- Python `s.endswith(suf)`. -/
def pyEndsWith (s suf : String) : Bool := leadsWithL suf.data.reverse s.data.reverse

/-- Python `s.lower()` (ASCII). -/
def pyLower (s : String) : String := ⟨s.data.map Char.toLower⟩

/-- Python `c in s` for a single character. -/
def pyContainsChar (s : String) (c : Char) : Bool := s.data.contains c

/-- Concatenation of a list of strings (successive `+=` in a Python loop). -/
def strJoin : List String → String
  | [] => ""
  | s :: rest => s ++ strJoin rest

/-- First binding of `key` in an association list; Python `dict` lookup
(`insertA` prepends, so the first hit is the most recent write). -/
def lookupA : List (String × α) → String → Option α
  | [], _ => none
  | (k, v) :: rest, key => if k = key then some v else lookupA rest key

/-- Python `dict[key] = value`. -/
def insertA (m : List (String × α)) (k : String) (v : α) : List (String × α) :=
  (k, v) :: m

/-- A pandas cell value: `none` models NaN, `some s` a string cell. -/
abbrev PyVal := Option String

/-- One contact record: an ordered mapping from column name to cell value. -/
abbrev Record := List (String × PyVal)

/-- Python `str(value)` of a cell (`str(float('nan')) = "nan"`). -/
def pyStrVal : PyVal → String
  | none => "nan"
  | some s => s

/-! ### `src/email_validator.py` -/

/-- Character class `[a-zA-Z0-9._%+-]` of the local part of the email regex. -/
def localChar (c : Char) : Bool :=
  c.isAlpha || c.isDigit || c == '.' || c == '_' || c == '%' || c == '+' || c == '-'

/-- Character class `[a-zA-Z0-9.-]` of the domain part of the email regex. -/
def domainChar (c : Char) : Bool :=
  c.isAlpha || c.isDigit || c == '.' || c == '-'

/-- Split a list at its first occurrence of `ch`: `some (before, after)`,
or `none` when `ch` does not occur. -/
def splitAtChar (ch : Char) : List Char → Option (List Char × List Char)
  | [] => none
  | c :: rest =>
    if c == ch then some ([], rest)
    else
      match splitAtChar ch rest with
      | some (a, b) => some (c :: a, b)
      | none => none

/-- Does `cs` match `[a-zA-Z0-9.-]+\.[a-zA-Z]{2,}` exactly?  A match needs an
all-letter suffix of length at least 2 preceded by a literal dot; since any
shorter all-letter suffix is preceded by a letter, the only candidate is the
maximal trailing letter run. -/
def domainTailMatch (cs : List Char) : Bool :=
  let rev := cs.reverse
  let tld := rev.takeWhile Char.isAlpha
  let restRev := rev.dropWhile Char.isAlpha
  decide (2 ≤ tld.length) &&
    (match restRev with
     | '.' :: aRev => !aRev.isEmpty && aRev.all domainChar
     | _ => false)

/-- Full match of `^[a-zA-Z0-9._%+-]+@[a-zA-Z0-9.-]+\.[a-zA-Z]{2,}$` against
`cs`.  Neither character class contains `@`, so the pattern's `@` must align
with the first `@` of the string. -/
def emailCoreMatch (cs : List Char) : Bool :=
  match splitAtChar '@' cs with
  | none => false
  | some (loc, dom) => !loc.isEmpty && loc.all localChar && domainTailMatch dom

/-- The source's `is_valid_email_` syntax check (lines 78-86), renamed here
to `is_valid_email_stx`.  `bool(re.match(pattern, email))`
with a `$`-anchored pattern: in Python, `$` also matches just before a single
trailing newline.  Non-string inputs (the `isinstance` guard) are outside the
`String`-typed embedding. -/
def is_valid_email_stx (email : String) : Bool :=
  emailCoreMatch email.data ||
    (match email.data.getLast? with
     | some c => c == '\n' && emailCoreMatch email.data.dropLast
     | none => false)

/-- `email.split('@')[-1]`: the part after the last `@` (the whole string
when there is no `@`). -/
def pyDomainOf (email : String) : String :=
  ⟨(email.data.reverse.takeWhile (fun c => c != '@')).reverse⟩

/-- The fixed `disposable_domains` set (lines 111-117). -/
def disposable_domains : List String :=
  ["temp-mail.org", "tempmail.com", "throwawaymail.com", "mailinator.com",
   "yopmail.com", "guerrillamail.com", "sharklasers.com", "10minutemail.com",
   "trashmail.com", "mailnesia.com", "maildrop.cc", "getairmail.com",
   "getnada.com", "emailondeck.com", "spamgourmet.com", "fakeinbox.com",
   "tempinbox.com", "temp-mail.ru", "dispostable.com"]

/-- `is_disposable_domain` (lines 109-119): `domain.lower()` membership. -/
def is_disposable_domain (domain : String) : Bool :=
  disposable_domains.contains (pyLower domain)

/-! ### Oracle world and parsed external data -/

/-- One organic SerpAPI result; fields mirror `result.get('title', '')` etc.,
so each is an `Option String` defaulting to `""`. -/
structure SerpResult where
  title : Option String
  snippet : Option String
  link : Option String
deriving DecidableEq

/-- The parsed body of a SerpAPI response (`response.json()`):
`organic_results` when that key is present, and `knowledge_graph` reduced to
its string-valued items (the only ones the source reads). -/
structure SerpData where
  organic_results : Option (List SerpResult)
  knowledge_graph : Option (List (String × String))
deriving DecidableEq

/-- One parsed DuckDuckGo `result__body` block.  `title`/`snippet` are the
texts of the optional `result__a`/`result__snippet` elements; `link` is the
href carried by the result anchor on the page — present in the fetched
markup, but never read by the source. -/
structure DuckResult where
  title : Option String
  snippet : Option String
  link : Option String
deriving DecidableEq

/-- The parsed JSON object of a successful OpenAI completion
(`json.loads(response.choices[0].message.content)`), reduced to the two
fields the source reads with `.get`. -/
structure AIJson where
  status : Option String
  reason : Option String
deriving DecidableEq

/-- All external effects, as deterministic oracles.  Errors of fallible
oracles carry the Python exception text (`str(e)`). -/
structure World where
  /-- Does `dns.resolver.resolve(domain, 'MX')` succeed? -/
  mxResolves : String → Bool
  /-- Does `dns.resolver.resolve(domain, 'A')` succeed? -/
  aResolves : String → Bool
  /-- `os.getenv("ABSTRACT_API_KEY")`. -/
  abstractKey : Option String
  /-- The Abstract API call for an email: HTTP status code and the
  `deliverability` field of the JSON body when present. -/
  abstractApi : String → Except String (Nat × Option String)
  /-- `trafilatura.fetch_url`: the downloaded document, or `None`. -/
  fetchUrl : String → Option String
  /-- `trafilatura.extract`: extracted text, or `None`. -/
  extract : String → Option String
  /-- `requests.get(url, timeout=10).text` for the BeautifulSoup fallback. -/
  httpGet : String → Except String String
  /-- The texts of the `p`/`h1`-`h5`/`li` elements BeautifulSoup finds. -/
  soupTexts : String → List String
  /-- `os.getenv("SERPAPI_KEY")`. -/
  serpKey : Option String
  /-- The SerpAPI search call, keyed by company name. -/
  serpApi : String → Except String SerpData
  /-- The DuckDuckGo HTML search call, keyed by company name. -/
  duckApi : String → Except String (List DuckResult)
  /-- `requests.head(url, timeout=5).status_code`. -/
  probeHead : String → Except String Nat
  /-- `os.environ.get("OPENAI_API_KEY", "")`. -/
  openaiKey : String
  /-- The chat-completion call: (model, system message, user prompt,
  deep flag) to a parsed structured response or an exception text. -/
  aiCall : String → String → String → Bool → Except String AIJson
  /-- Python's `hash` on strings (session-dependent, hence an oracle). -/
  pyHash : String → Int

/-! ### `src/email_validator.py`: stateful validator -/

/-- The module-level `dns_cache` and `validation_cache`. -/
structure EmailState where
  dns_cache : List (String × Bool)
  validation_cache : List (String × String)
deriving DecidableEq

/-- `verify_domain_mx` (lines 88-107): MX lookup with A-record fallback,
cached by domain.  Returns the flag, the updated cache, and the number of
DNS resolver calls issued. -/
def verify_domain_mx (w : World) (dc : List (String × Bool)) (domain : String) :
    Bool × List (String × Bool) × Nat :=
  match lookupA dc domain with
  | some b => (b, dc, 0)
  | none =>
    if w.mxResolves domain then (true, insertA dc domain true, 1)
    else if w.aResolves domain then (true, insertA dc domain true, 2)
    else (false, insertA dc domain false, 2)

/-- `validate_email` (lines 10-76).  Returns the verdict string, the updated
caches, and the number of DNS resolver calls issued. -/
def validate_email (w : World) (st : EmailState) (email : String) :
    String × EmailState × Nat :=
  match lookupA st.validation_cache email with
  | some s => (s, st, 0)
  | none =>
    if !is_valid_email_stx email then
      ("Invalid",
       { st with validation_cache := insertA st.validation_cache email "Invalid" }, 0)
    else
      let domain := pyDomainOf email
      let r := verify_domain_mx w st.dns_cache domain
      let dc := r.2.1
      let n := r.2.2
      if !r.1 then
        ("Uncertain",
         ⟨dc, insertA st.validation_cache email "Uncertain"⟩, n)
      else if is_disposable_domain domain then
        ("Invalid",
         ⟨dc, insertA st.validation_cache email "Invalid"⟩, n)
      else
        match w.abstractKey with
        | some _ =>
          (match w.abstractApi email with
           | .error _ =>
             ("Uncertain", ⟨dc, insertA st.validation_cache email "Uncertain"⟩, n)
           | .ok (code, deliv) =>
             if code = 200 then
               match deliv with
               | some d =>
                 if d = "DELIVERABLE" then
                   ("Valid", ⟨dc, insertA st.validation_cache email "Valid"⟩, n)
                 else if d = "UNDELIVERABLE" then
                   ("Invalid", ⟨dc, insertA st.validation_cache email "Invalid"⟩, n)
                 else
                   ("Uncertain", ⟨dc, insertA st.validation_cache email "Uncertain"⟩, n)
               | none =>
                 ("Uncertain", ⟨dc, insertA st.validation_cache email "Uncertain"⟩, n)
             else
               ("Uncertain", ⟨dc, insertA st.validation_cache email "Uncertain"⟩, n))
        | none =>
          ("Valid", ⟨dc, insertA st.validation_cache email "Valid"⟩, n)

/-! ### `src/web_utils.py` -/

/-- `scrape_company_website` (lines 49-84).  Total: its whole body is inside
`try/except` returning `""`.  Returns the scraped text and the number of
network calls issued (`fetch_url`, plus `requests.get` on the fallback). -/
def scrape_company_website (w : World) (domain : String) : String × Nat :=
  let url := if pyStartsWith domain "http" then domain else "https://" ++ domain
  match w.fetchUrl url with
  | none => ("", 1)
  | some downloaded =>
    match w.extract downloaded with
    | some t =>
      if t = "" then
        -- `if not text:` — empty extraction also falls back to BeautifulSoup
        match w.httpGet url with
        | .error _ => ("", 2)
        | .ok body => (strJoin ((w.soupTexts body).map (fun s => s ++ "\n")), 2)
      else (t, 1)
    | none =>
      match w.httpGet url with
      | .error _ => ("", 2)
      | .ok body => (strJoin ((w.soupTexts body).map (fun s => s ++ "\n")), 2)

/-- One organic-result block of `search_using_serpapi`
(`f"{title}\n{snippet}\n{link}\n\n"`). -/
def serpEntry (r : SerpResult) : String :=
  r.title.getD "" ++ "\n" ++ r.snippet.getD "" ++ "\n" ++ r.link.getD "" ++ "\n\n"

/-- One knowledge-graph line (`f"{key}: {value}\n"`). -/
def kgEntry (p : String × String) : String := p.1 ++ ": " ++ p.2 ++ "\n"

/-- `search_using_serpapi` (lines 96-134).  Total (`try/except` returns
`""`); the second component counts the one HTTP request. -/
def search_using_serpapi (w : World) (company_name : String) : String × Nat :=
  match w.serpApi company_name with
  | .error _ => ("", 1)
  | .ok data =>
    match data.organic_results with
    | none => ("", 1)
    | some results =>
      let base := strJoin ((results.take 3).map serpEntry)
      let kgT :=
        match data.knowledge_graph with
        | some kg => strJoin (kg.map kgEntry)
        | none => ""
      (base ++ kgT, 1)

/-- One result block of `search_using_duckduckgo`
(`f"{title}\n{snippet}\n\n"` — the link is never emitted). -/
def duckEntry (r : DuckResult) : String :=
  r.title.getD "No title" ++ "\n" ++ r.snippet.getD "No snippet" ++ "\n\n"

/-- `search_using_duckduckgo` (lines 136-176).  Total; one HTTP request. -/
def search_using_duckduckgo (w : World) (company_name : String) : String × Nat :=
  match w.duckApi company_name with
  | .error _ => ("", 1)
  | .ok results => (strJoin ((results.take 3).map duckEntry), 1)

/-- `search_for_company` (lines 86-94). -/
def search_for_company (w : World) (company_name : String) : String × Nat :=
  match w.serpKey with
  | some _ => search_using_serpapi w company_name
  | none => search_using_duckduckgo w company_name

/-- Python `str(...)` of the `domain` argument, as used in the cache key
f-string: `None -> "None"`, NaN -> `"nan"`, a string to itself. -/
def pyStrOfDomain : Option PyVal → String
  | none => "None"
  | some none => "nan"
  | some (some s) => s

/-- The body of `get_company_info_from_web` after a cache miss (lines
26-43): both strategies, concatenated.  The only raising path is the
strategy-1 guard `if domain and not company_name.lower() == domain.lower():`
with a NaN `domain` (a float, whose `.lower()` raises `AttributeError`
before any network call). -/
def gatherFresh (w : World) (cname : String) (domain : Option PyVal) :
    Except String (String × Nat) :=
  match domain with
  | some none => .error "AttributeError"
  | some (some d) =>
    if d ≠ "" && pyLower cname ≠ pyLower d then
      let s1 := scrape_company_website w d
      let part1 := if s1.1 ≠ "" then s1.1 ++ "\n\n" else ""
      let s2 := search_for_company w cname
      .ok (part1 ++ s2.1, s1.2 + s2.2)
    else
      let s2 := search_for_company w cname
      .ok (s2.1, s2.2)
  | none =>
    let s2 := search_for_company w cname
    .ok (s2.1, s2.2)

/-- `get_company_info_from_web` (lines 11-47).  `company_name` is `none`
for Python `None`; the falsy check `if not company_name:` covers `None` and
`""`.  Returns the combined text, the updated `web_cache`, and the number
of network calls issued. -/
def get_company_info_from_web (w : World) (cache : List (String × String))
    (company_name : Option String) (domain : Option PyVal) :
    Except String (String × List (String × String) × Nat) :=
  if company_name = none ∨ company_name = some "" then .ok ("", cache, 0)
  else
    let cname := (company_name.getD "")
    let key := cname ++ "_" ++ pyStrOfDomain domain
    match lookupA cache key with
    | some v => .ok (v, cache, 0)
    | none =>
      match gatherFresh w cname domain with
      | .error e => .error e
      | .ok (combined, n) => .ok (combined, insertA cache key combined, n)

/-! ### `src/openai_verification.py` -/

/-- The module-level `ai_cache`, `ai_quota_exceeded` and `ai_error_message`. -/
structure AIState where
  ai_cache : List (String × String)
  ai_quota_exceeded : Bool
  ai_error_message : String
deriving DecidableEq

/-- JSON escaping of one character, as `json.dumps` performs it (the escapes
relevant to the inputs in play). -/
def jsonEscapeChar (c : Char) : String :=
  if c = '\\' then "\\\\"
  else if c = '"' then "\\\""
  else if c = '\n' then "\\n"
  else if c = '\t' then "\\t"
  else if c = '\r' then "\\r"
  else String.singleton c

/-- A JSON string literal. -/
def jsonStr (s : String) : String :=
  "\"" ++ strJoin (s.data.map jsonEscapeChar) ++ "\""

/-- A JSON value for one cell under `default=str`: `json.dumps` serializes a
NaN float as the literal `NaN`, and a string as a quoted literal. -/
def jsonVal : PyVal → String
  | none => "NaN"
  | some s => jsonStr s

/-- Join with a separator (the `", "` of `json.dumps`). -/
def joinSep (sep : String) : List String → String
  | [] => ""
  | [x] => x
  | x :: y :: ys => x ++ sep ++ joinSep sep (y :: ys)

/-- `json.dumps(row_data, default=str)` for a record dict (insertion
order). -/
def jsonDumps (row : Record) : String :=
  "\x7b" ++ joinSep ", " (row.map (fun kv => jsonStr kv.1 ++ ": " ++ jsonVal kv.2)) ++ "\x7d"

/-- Python `f"{b}"` for a bool. -/
def pyBoolStr (b : Bool) : String := if b then "True" else "False"

/-- The cache key of `verify_contact_with_ai` (line 85):
`f"{field_name}:{field_value}:{hash(json.dumps(row_data, default=str))}:{use_deep_search}"`.
Note that `row_data` is hashed in full — entries whose keys end in
`_status` are not excluded here. -/
def make_cache_key (pyHash : String → Int) (field_name field_value : String)
    (row : Record) (deep : Bool) : String :=
  field_name ++ ":" ++ field_value ++ ":" ++ toString (pyHash (jsonDumps row)) ++ ":"
    ++ pyBoolStr deep

/-- Model selection (lines 93-99). -/
def aiModelOf (deep : Bool) : String := if deep then "gpt-4" else "gpt-3.5-turbo"

/-- The system message (lines 105-112). -/
def aiSystemMessage (deep : Bool) (field_name : String) : String :=
  let base := "You are a data verification expert specializing in contact and company information."
  let base :=
    if deep && field_name = "Contact Job Title" then
      base ++ " You must verify job titles by considering company size, industry trends, and typical organizational structures."
    else if deep && hasSub field_name "LinkedIn" then
      base ++ " You must verify LinkedIn profiles by examining URL patterns and consistency with other contact information."
    else base
  base ++ " Your task is to verify if the given information appears to be accurate based on your knowledge and the context provided. Respond with a JSON object containing a \x27status\x27 field with one of these values: \x27Valid\x27, \x27Uncertain\x27, or \x27Invalid\x27, and a \x27reason\x27 field explaining your decision."

/-- The deep-mode checklist appended for a job title (lines 187-195). -/
def jobTitleChecklist : String :=
  "\n            \nFor this job title verification:\n1. Check if the job title is typical for the company\x27s industry\n2. Consider the company size and whether such a position would exist there\n3. Verify if the job title aligns with the person\x27s LinkedIn profile\n4. Look for any inconsistencies between the job title and other contact information\n5. Consider if the job title has appropriate seniority for the contact\x27s other attributes\n"

/-- The deep-mode checklist for LinkedIn fields (lines 197-204). -/
def linkedInChecklist : String :=
  "\n            \nFor this LinkedIn profile verification:\n1. Check if the URL format matches LinkedIn\x27s standard format\n2. Verify if the profile name matches the contact\x27s name\n3. Consider if the profile seems to belong to someone at the specified company\n4. Look for any inconsistencies with other contact information\n"

/-- The deep-mode checklist for company name/domain (lines 205-213). -/
def companyChecklist : String :=
  "\n            \nFor this company verification:\n1. Check if the company name and domain align with each other\n2. Verify if the company appears to be legitimate based on industry and other details\n3. Consider if the company location matches the provided address information\n4. Look for any inconsistencies that might suggest the company is not valid\n"

/-- The deep-mode generic checklist (lines 214-222). -/
def genericChecklist : String :=
  "\n            \nFor this detailed verification:\n1. Check if the information is internally consistent with other contact details\n2. Verify if the information follows expected patterns and formats\n3. Consider if there are any red flags or unusual elements in the data\n4. Look for evidence that confirms or contradicts the information\n"

/-- The closing examples-and-output block (lines 225-235). -/
def promptTail : String :=
  "\n    \nFor example, for a company name, you would check if it seems like a real company that matches the industry and other information provided.\nFor a person\x27s name, you\x27d check if it seems like a realistic name that matches the company and role.\nFor an address, you\x27d check if it appears to be a valid address format and is in the correct city/state.\nFor a job title, you\x27d check if it seems appropriate for the company and industry.\n\nRespond with a JSON object containing:\n- A \x27status\x27 field with one of these values: \x27Valid\x27, \x27Uncertain\x27, or \x27Invalid\x27\n- A \x27reason\x27 field explaining your decision with specific details\n"

/-- `create_verification_prompt` (lines 156-237).  The context loop skips
the field under verification and every key ending in `_status`. -/
def create_verification_prompt (field_name field_value : String) (row : Record)
    (deep : Bool) : String :=
  let head := "I need to verify if this information is correct:\nField: " ++ field_name
    ++ "\nValue: " ++ field_value
    ++ "\n\nHere\x27s the context (other information about this contact):\n"
  let ctx := strJoin ((row.filter
      (fun kv => kv.1 ≠ field_name && !pyEndsWith kv.1 "_status")).map
      (fun kv => kv.1 ++ ": " ++ pyStrVal kv.2 ++ "\n"))
  let mid := "\nBased on this information and your knowledge, analyze if the value for the field appears to be valid, uncertain, or invalid."
  let deepPart :=
    if deep then
      if field_name = "Contact Job Title" then jobTitleChecklist
      else if hasSub field_name "LinkedIn" then linkedInChecklist
      else if field_name = "Company Name" ∨ field_name = "Company Domain" then companyChecklist
      else genericChecklist
    else ""
  head ++ ctx ++ mid ++ deepPart ++ promptTail

/-- The breaker message set on a quota failure (lines 146, 54). -/
def quotaMsg : String :=
  "OpenAI API quota exceeded. Advanced verification has been disabled."

/-- The breaker message set on an invalid-key failure (lines 150, 57). -/
def invalidKeyMsg : String :=
  "Invalid OpenAI API key. Advanced verification has been disabled."

/-- The transient error message (line 152). -/
def transientMsg (e : String) : String :=
  "OpenAI API error: " ++ e ++ ". Some verification features may be limited."

/-- `verify_contact_with_ai` (lines 63-154).  Returns the status string, the
updated module state, and the number of OpenAI API calls issued. -/
def verify_contact_with_ai (w : World) (st : AIState) (field_name field_value : String)
    (row : Record) (deep : Bool) : String × AIState × Nat :=
  if w.openaiKey = "" ∨ st.ai_quota_exceeded = true then ("Uncertain", st, 0)
  else
    let key := make_cache_key w.pyHash field_name field_value row deep
    match lookupA st.ai_cache key with
    | some s => (s, st, 0)
    | none =>
      match w.aiCall (aiModelOf deep) (aiSystemMessage deep field_name)
          (create_verification_prompt field_name field_value row deep) deep with
      | .ok result =>
        let status := result.status.getD "Uncertain"
        (status, { st with ai_cache := insertA st.ai_cache key status }, 1)
      | .error e =>
        let low := pyLower e
        if hasSub low "quota" || hasSub low "insufficient" then
          ("Uncertain",
           { st with ai_quota_exceeded := true, ai_error_message := quotaMsg }, 1)
        else if hasSub low "api key" || hasSub low "apikey" then
          ("Uncertain",
           { st with ai_quota_exceeded := true, ai_error_message := invalidKeyMsg }, 1)
        else
          ("Uncertain", { st with ai_error_message := transientMsg e }, 1)

/-- The arguments of one AI Judge classification call. -/
structure AICall where
  field_name : String
  field_value : String
  row : Record
  deep : Bool

/-- A session fragment: a sequence of AI Judge calls, threaded through the
module state.  Each output is the status and the number of API calls it
issued. -/
def runAI (w : World) : List AICall → AIState → List (String × Nat) × AIState
  | [], st => ([], st)
  | c :: rest, st =>
    let r := verify_contact_with_ai w st c.field_name c.field_value c.row c.deep
    let rec' := runAI w rest r.2.1
    ((r.1, r.2.2) :: rec'.1, rec'.2)

/-! ### `src/data_verification.py` -/

/-- All session-wide mutable state of the engine. -/
structure SessState where
  emailSt : EmailState
  webCache : List (String × String)
  aiSt : AIState
deriving DecidableEq

/-- Python `str.isalnum` (ASCII restriction). -/
def pyIsAlnum (c : Char) : Bool := c.isAlpha || c.isDigit

/-- `''.join(e.lower() for e in s if e.isalnum())` (lines 195-196). -/
def simpleAlnum (s : String) : String :=
  ⟨(s.data.filter pyIsAlnum).map Char.toLower⟩

/-- Python `str.split()` with no argument: split on whitespace runs,
dropping empty pieces. -/
def splitWSAux : List Char → List Char → List String
  | [], acc => if acc.isEmpty then [] else [⟨acc.reverse⟩]
  | c :: rest, acc =>
    if c.isWhitespace then
      if acc.isEmpty then splitWSAux rest []
      else (⟨acc.reverse⟩ : String) :: splitWSAux rest []
    else splitWSAux rest (c :: acc)

/-- Python `s.split()`. -/
def pySplitWS (s : String) : List String := splitWSAux s.data []

/-- `verify_name_against_company` (lines 137-155).  `first`/`last` are the
raw cells (`str(nan) = "nan"` under the f-string); the `try/except` catches
the `AttributeError` a NaN `company_domain` raises inside the gatherer
(before any network call, so the cache is unchanged there). -/
def verify_name_against_company (w : World) (webCache : List (String × String))
    (first last : PyVal) (company : String) (company_domain : Option PyVal) :
    String × List (String × String) × Nat :=
  match get_company_info_from_web w webCache (some company) company_domain with
  | .error _ => ("Uncertain", webCache, 0)
  | .ok (info, cache', n) =>
    let full_name := pyLower (pyStrVal first ++ " " ++ pyStrVal last)
    if hasSub (pyLower info) full_name then ("Valid", cache', n)
    else ("Uncertain", cache', n)

/-- `verify_company_exists` (lines 157-173): the length heuristic on the
gathered text. -/
def verify_company_exists (w : World) (webCache : List (String × String))
    (company : String) (company_domain : Option PyVal) :
    String × List (String × String) × Nat :=
  match get_company_info_from_web w webCache (some company) company_domain with
  | .error _ => ("Uncertain", webCache, 0)
  | .ok (info, cache', n) =>
    if 100 < info.length then ("Valid", cache', n)
    else if 0 < info.length then ("Uncertain", cache', n)
    else ("Invalid", cache', n)

/-- `verify_company_domain` (lines 175-213).  The format check is
`'.' not in domain or ' ' in domain` — a literal space, not general
whitespace.  The second component counts the `requests.head` probes. -/
def verify_company_domain (w : World) (domain : String) (company : Option String) :
    String × Nat :=
  if domain = "" then ("Uncertain", 0)
  else if !(pyContainsChar domain '.') || pyContainsChar domain ' ' then ("Invalid", 0)
  else
    match w.probeHead ("https://" ++ domain) with
    | .error _ => ("Uncertain", 1)
    | .ok code =>
      if code < 400 then
        match company with
        | some c =>
          if c ≠ "" then
            if hasSub (simpleAlnum domain) (simpleAlnum c) then ("Valid", 1)
            else ("Uncertain", 1)
          else ("Valid", 1)
        | none => ("Valid", 1)
      else ("Uncertain", 1)

/-- `verify_address_component` (lines 215-264).  `component_value` is the
(non-NaN, non-empty) cell under verification; `row` is the full record
passed through to the AI Judge.  The source's `matches > len(parts) / 2`
(float division) is embedded as `len(parts) < 2 * matches`.  The trailing
`"None"` branch mirrors Python falling off the if-chain (unreachable from
`verify_data`, whose address columns are exactly the five handled ones). -/
def verify_address_component (w : World) (st : SessState)
    (component_type component_value : String) (company : Option String)
    (row : Record) (use_ai use_deep : Bool) : String × SessState × Nat :=
  match company with
  | some c =>
    if c ≠ "" then
      match get_company_info_from_web w st.webCache (some c) none with
      | .error _ => ("Uncertain", st, 0)
      | .ok (info, wc', n) =>
        let st1 := { st with webCache := wc' }
        if component_type = "Company Address" then
          let parts := pySplitWS (pyLower component_value)
          let nMatches := (parts.filter (fun p => hasSub (pyLower info) p)).length
          if parts.length < 2 * nMatches then ("Valid", st1, n)
          else if 0 < nMatches then ("Uncertain", st1, n)
          else ("Invalid", st1, n)
        else if component_type = "Company City" ∨ component_type = "Company State"
            ∨ component_type = "Company Country" then
          if hasSub (pyLower info) (pyLower component_value) then ("Valid", st1, n)
          else if use_ai then
            -- `use_ai and row_data is not None`; verify_data always passes the row
            let r := verify_contact_with_ai w st1.aiSt component_type component_value
              row use_deep
            (r.1, { st1 with aiSt := r.2.1 }, n + r.2.2)
          else ("Uncertain", st1, n)
        else if component_type = "Company Postal Code" then
          if hasSub info component_value then ("Valid", st1, n)
          else ("Uncertain", st1, n)
        else ("None", st1, n)
    else ("Uncertain", st, 0)
  | none => ("Uncertain", st, 0)

/-- `verify_industry` (lines 266-296). -/
def verify_industry (w : World) (st : SessState) (industry : String)
    (company : Option String) (use_ai use_deep : Bool) : String × SessState × Nat :=
  match company with
  | some c =>
    if c ≠ "" then
      match get_company_info_from_web w st.webCache (some c) none with
      | .error _ => ("Uncertain", st, 0)
      | .ok (info, wc', n) =>
        let st1 := { st with webCache := wc' }
        if hasSub (pyLower info) (pyLower industry) then ("Valid", st1, n)
        else if use_ai then
          let row_dict : Record := [("Company Name", some c), ("Company Industry", some industry)]
          let r := verify_contact_with_ai w st1.aiSt "Company Industry" industry
            row_dict use_deep
          (r.1, { st1 with aiSt := r.2.1 }, n + r.2.2)
        else ("Uncertain", st1, n)
    else ("Uncertain", st, 0)
  | none => ("Uncertain", st, 0)

/-- The company-resolution loop of `verify_data` (lines 43-47, 74-79,
86-91, 104-109): `for company_col in ["Company", "Company Name"]`, taking
the first column that is present with a non-NaN value. -/
def resolveCompany (row : Record) : Option String :=
  match lookupA row "Company" with
  | some (some s) => some s
  | _ =>
    match lookupA row "Company Name" with
    | some (some s) => some s
    | _ => none

/-- The per-field `try/except` of `verify_data` (lines 35, 127-130): any
exception inside the branch degrades the field to `Uncertain`.  (Every
raising path in the embedded branches raises before its first side effect,
so restoring the pre-branch state is faithful.) -/
def catchUncertain (st : SessState) (x : Except String (String × SessState × Nat)) :
    Except String (String × SessState × Nat) :=
  match x with
  | .ok out => .ok out
  | .error _ => .ok ("Uncertain", st, 0)

/-- The body of `verify_data`'s loop for one column (lines 24-130).
`Except.error` models an exception that escapes the loop iteration: the
only such path is the `KeyError` of `row_data.iloc[0][col]` at line 30,
which sits before the `try`.  The sibling-column accesses
`row_data.iloc[0]["First Name"]`/`["Last Name"]` (lines 53-54) sit inside
the `try`, so their `KeyError` degrades to `Uncertain`. -/
def verifyField (w : World) (st : SessState) (row : Record) (col : String)
    (use_ai use_deep : Bool) : Except String (String × SessState × Nat) :=
  match lookupA row col with
  | none => .error "KeyError"
  | some v =>
    if v = none ∨ v = some "" then .ok ("Uncertain", st, 0)
    else
      let value := pyStrVal v
      catchUncertain st
        (if col = "Email" then
          let r := validate_email w st.emailSt value
          .ok (r.1, { st with emailSt := r.2.1 }, r.2.2)
        else if col = "First Name" ∨ col = "Last Name" then
          match resolveCompany row with
          | some c =>
            if c ≠ "" then
              match lookupA row "First Name" with
              | none => .error "KeyError"
              | some fn =>
                match lookupA row "Last Name" with
                | none => .error "KeyError"
                | some ln =>
                  let r := verify_name_against_company w st.webCache fn ln c
                    (lookupA row "Company Domain")
                  .ok (r.1, { st with webCache := r.2.1 }, r.2.2)
            else .ok ("Uncertain", st, 0)
          | none => .ok ("Uncertain", st, 0)
        else if col = "Company" ∨ col = "Company Name" then
          let r := verify_company_exists w st.webCache value (lookupA row "Company Domain")
          .ok (r.1, { st with webCache := r.2.1 }, r.2.2)
        else if col = "Company Domain" then
          let r := verify_company_domain w value (resolveCompany row)
          .ok (r.1, st, r.2)
        else if col = "Company Address" ∨ col = "Company City" ∨ col = "Company State"
            ∨ col = "Company Country" ∨ col = "Company Postal Code" then
          let r := verify_address_component w st col value (resolveCompany row) row
            use_ai use_deep
          .ok r
        else if col = "BYD_Industries" ∨ col = "Company Industry" then
          let r := verify_industry w st value (resolveCompany row) use_ai use_deep
          .ok r
        else
          if use_ai then
            let r := verify_contact_with_ai w st.aiSt col value row use_deep
            .ok (r.1, { st with aiSt := r.2.1 }, r.2.2)
          else .ok ("Uncertain", st, 0))

/-- `verify_data` (lines 7-135) restricted to its observable engine output:
the list of `"<col>_status"` entries it commits, in order, plus the final
session state.  An uncaught exception while on one column aborts the whole
call (the Python exception propagates out of `verify_data`). -/
def verify_data (w : World) (st : SessState) (row : Record) (cols : List String)
    (use_ai use_deep : Bool) : Except String (List (String × String) × SessState) :=
  match cols with
  | [] => .ok ([], st)
  | col :: rest =>
    match verifyField w st row col use_ai use_deep with
    | .error e => .error e
    | .ok (s, st', _) =>
      match verify_data w st' row rest use_ai use_deep with
      | .error e => .error e
      | .ok (outs, stF) => .ok ((col ++ "_status", s) :: outs, stF)

/-! ### Concrete states and worlds for witnesses and counterexamples -/

/-- The value of a non-raising computation, for stating facts about
`Except`-valued runs. -/
def exVal : Except ε α → Option α
  | .ok a => some a
  | .error _ => none

/-- Fresh email-validator state (empty module caches at import time). -/
def ES0 : EmailState := ⟨[], []⟩

/-- Fresh AI-judge state (empty cache, breaker clear). -/
def AIS0 : AIState := ⟨[], false, ""⟩

/-- Fresh session state. -/
def S0 : SessState := ⟨ES0, [], AIS0⟩

/-- A base world: offline network, no optional credentials, no AI key. -/
def W0 : World :=
  { mxResolves := fun _ => false
    aResolves := fun _ => false
    abstractKey := none
    abstractApi := fun _ => .error "offline"
    fetchUrl := fun _ => none
    extract := fun _ => none
    httpGet := fun _ => .error "offline"
    soupTexts := fun _ => []
    serpKey := none
    serpApi := fun _ => .error "offline"
    duckApi := fun _ => .error "offline"
    probeHead := fun _ => .error "offline"
    openaiKey := ""
    aiCall := fun _ _ _ _ => .error "offline"
    pyHash := fun _ => 0 }

/-- World for the C1 run: AI key present, and the completion API answers
with a structured response whose `status` is the unrecognized `"Maybe"`. -/
def W1 : World :=
  { W0 with
    openaiKey := "sk-test"
    aiCall := fun _ _ _ _ => .ok ⟨some "Maybe", some "ambiguous"⟩ }

/-- World whose AI call always fails with a quota-signature error. -/
def WquotaErr : World :=
  { W0 with
    openaiKey := "sk-test"
    aiCall := fun _ _ _ _ => .error "Error code 429 - insufficient_quota" }

/-- World where MX resolution succeeds for every domain. -/
def Wmx : World := { W0 with mxResolves := fun _ => true }

/-- World whose HTTP HEAD probe always answers 200. -/
def WprobeOK : World := { W0 with probeHead := fun _ => .ok 200 }

/-- World whose HTTP HEAD probe always answers 404. -/
def W404 : World := { W0 with probeHead := fun _ => .ok 404 }

/-- World with no SerpAPI credential whose DuckDuckGo page yields one
result carrying a link text that occurs nowhere in its title/snippet. -/
def Wduck : World :=
  { W0 with
    duckApi := fun _ => .ok [⟨some "Title A", some "Snippet B", some "https://link-c.example"⟩] }

/-- World with a SerpAPI credential and a fixed three-result answer. -/
def Wserp : World :=
  { W0 with
    serpKey := some "serp-key"
    serpApi := fun _ => .ok
      ⟨some [⟨some "T1", some "S1", some "L1"⟩, ⟨some "T2", some "S2", some "L2"⟩,
             ⟨some "T3", some "S3", some "L3"⟩], none⟩ }

/-- World for the C7 counterexample: a concrete string hash (the length),
an AI key, and a successful structured response. -/
def WlenHash : World :=
  { W0 with
    openaiKey := "sk-test"
    pyHash := fun s => Int.ofNat s.length
    aiCall := fun _ _ _ _ => .ok ⟨some "Valid", some "r"⟩ }

/-- Record context used by the C7 counterexample. -/
def ctxA : Record := [("Email", some "a@b.co"), ("Email_status", some "Valid")]

/-- The same context with only the derived `Email_status` entry changed. -/
def ctxB : Record := [("Email", some "a@b.co"), ("Email_status", some "Uncertain")]

/-! ## Theorems

General-purpose lemmas about the helpers, shared by several claim
developments. -/

theorem lookupA_insertA_self (m : List (String × α)) (k : String) (v : α) :
    lookupA (insertA m k v) k = some v := by
  simp [insertA, lookupA]

theorem strEq_of_data (s t : String) (h : s.data = t.data) : s = t := by
  cases s; cases t; exact congrArg String.mk h

theorem strData_append (s t : String) : (s ++ t).data = s.data ++ t.data := by
  cases s; cases t; rfl

theorem strAppend_assoc (a b c : String) : a ++ b ++ c = a ++ (b ++ c) := by
  apply strEq_of_data
  simp [strData_append]

theorem leadsWithL_append (n a b : List Char) (h : leadsWithL n a = true) :
    leadsWithL n (a ++ b) = true := by
  induction n generalizing a with
  | nil => simp [leadsWithL]
  | cons c cs ih =>
    cases a with
    | nil => simp [leadsWithL] at h
    | cons d ds =>
      simp only [leadsWithL, Bool.and_eq_true] at h
      simp only [List.cons_append, leadsWithL, Bool.and_eq_true]
      exact ⟨h.1, ih ds h.2⟩

theorem leadsWithL_self_append (n b : List Char) : leadsWithL n (n ++ b) = true := by
  induction n with
  | nil => simp [leadsWithL]
  | cons c cs ih => simp [leadsWithL, ih]

theorem hasSubL_of_leadsWithL (n h : List Char) (hl : leadsWithL n h = true) :
    hasSubL n h = true := by
  cases h with
  | nil => simpa [hasSubL] using hl
  | cons c rest => simp [hasSubL, hl]

theorem hasSubL_append_right (n a b : List Char) (h : hasSubL n b = true) :
    hasSubL n (a ++ b) = true := by
  induction a with
  | nil => simpa using h
  | cons c cs ih =>
    simp only [List.cons_append, hasSubL, Bool.or_eq_true]
    exact Or.inr ih

theorem hasSubL_append_left (n a b : List Char) (h : hasSubL n a = true) :
    hasSubL n (a ++ b) = true := by
  induction a with
  | nil =>
    cases n with
    | nil => exact hasSubL_of_leadsWithL _ _ (by simp [leadsWithL])
    | cons c cs => simp [hasSubL, leadsWithL] at h
  | cons c cs ih =>
    simp only [hasSubL, Bool.or_eq_true] at h
    simp only [List.cons_append, hasSubL, Bool.or_eq_true]
    cases h with
    | inl hl => exact Or.inl (leadsWithL_append _ _ _ hl)
    | inr hr => exact Or.inr (ih hr)

theorem hasSub_append_left (a b n : String) (h : hasSub a n = true) :
    hasSub (a ++ b) n = true := by
  unfold hasSub at *
  rw [strData_append]
  exact hasSubL_append_left _ _ _ h

theorem hasSub_append_right (a b n : String) (h : hasSub b n = true) :
    hasSub (a ++ b) n = true := by
  unfold hasSub at *
  rw [strData_append]
  exact hasSubL_append_right _ _ _ h

theorem hasSub_of_eq_append (hay a x b : String) (he : hay = a ++ (x ++ b)) :
    hasSub hay x = true := by
  subst he
  apply hasSub_append_right
  unfold hasSub
  rw [strData_append]
  exact hasSubL_of_leadsWithL _ _ (leadsWithL_self_append _ _)

theorem hasSub_join_of_mem (l : List String) (s n : String) (hm : s ∈ l)
    (h : hasSub s n = true) : hasSub (strJoin l) n = true := by
  induction l with
  | nil => cases hm
  | cons t ts ih =>
    show hasSub (t ++ strJoin ts) n = true
    cases hm with
    | head => exact hasSub_append_left _ _ _ h
    | tail _ hmem => exact hasSub_append_right _ _ _ (ih hmem)

/-! ### Claims C9 and C10: the Web Evidence Gatherer -/

theorem gatherFresh_ok (w : World) (cname : String) (dom : Option String) :
    ∃ t n, gatherFresh w cname (dom.map some) = .ok (t, n) := by
  cases dom with
  | none => exact ⟨_, _, rfl⟩
  | some d =>
    show ∃ t n, gatherFresh w cname (some (some d)) = .ok (t, n)
    rw [gatherFresh]
    split
    · exact ⟨_, _, rfl⟩
    · exact ⟨_, _, rfl⟩

/-- Claim C9 (confirmed): the Web Evidence Gatherer is memoized by
(companyName, domain).  For every world, starting cache, company name and
optional (string) domain, the first call returns some text and cache, and
repeating the call on that cache returns the identical text, the identical
cache, and issues zero external calls. -/
theorem C9_gather_memoized (w : World) (cache : List (String × String))
    (cname : Option String) (dom : Option String) :
    ∃ t c n,
      get_company_info_from_web w cache cname (dom.map some) = .ok (t, c, n) ∧
      get_company_info_from_web w c cname (dom.map some) = .ok (t, c, 0) := by
  by_cases hf : cname = none ∨ cname = some ""
  · exact ⟨"", cache, 0, by simp [get_company_info_from_web, hf],
      by simp [get_company_info_from_web, hf]⟩
  · cases hl : lookupA cache ((cname.getD "") ++ "_" ++ pyStrOfDomain (dom.map some)) with
    | some v =>
      exact ⟨v, cache, 0, by simp [get_company_info_from_web, hf, hl],
        by simp [get_company_info_from_web, hf, hl]⟩
    | none =>
      obtain ⟨t, n, hg⟩ := gatherFresh_ok w (cname.getD "") dom
      refine ⟨t, insertA cache ((cname.getD "") ++ "_" ++ pyStrOfDomain (dom.map some)) t, n,
        by simp [get_company_info_from_web, hf, hl, hg], ?_⟩
      simp [get_company_info_from_web, hf, lookupA_insertA_self]

/-- Claim C10 (confirmed): a falsy company name (`None` or the empty
string) short-circuits the gatherer, for every domain argument (including a
NaN cell): the result is the empty string, the cache is unchanged (no entry
written), and zero external calls are issued. -/
theorem C10_falsy_company_short_circuit (w : World) (cache : List (String × String))
    (dom : Option PyVal) :
    get_company_info_from_web w cache none dom = .ok ("", cache, 0) ∧
    get_company_info_from_web w cache (some "") dom = .ok ("", cache, 0) := by
  constructor <;> simp [get_company_info_from_web]

/-! ### Claim C4: the email validator's short-circuit order -/

/-- Claim C4 (confirmed): on a fresh lookup (email not in the validation
cache, domain not in the DNS cache), (1) a syntactically invalid email
yields `Invalid` with zero DNS resolver calls; (2) a syntactically valid
email whose domain resolves neither MX nor A records yields `Uncertain`;
(3) a syntactically valid email whose domain resolves MX and matches the
disposable set (case-insensitively) yields `Invalid` even though MX
resolves. -/
theorem C4_email_short_circuit_order :
    (∀ (w : World) (st : EmailState) (email : String),
      lookupA st.validation_cache email = none →
      is_valid_email_stx email = false →
      validate_email w st email =
        ("Invalid",
         { st with validation_cache := insertA st.validation_cache email "Invalid" }, 0))
    ∧ (∀ (w : World) (st : EmailState) (email : String),
      lookupA st.validation_cache email = none →
      is_valid_email_stx email = true →
      lookupA st.dns_cache (pyDomainOf email) = none →
      w.mxResolves (pyDomainOf email) = false →
      w.aResolves (pyDomainOf email) = false →
      (validate_email w st email).1 = "Uncertain")
    ∧ (∀ (w : World) (st : EmailState) (email : String),
      lookupA st.validation_cache email = none →
      is_valid_email_stx email = true →
      lookupA st.dns_cache (pyDomainOf email) = none →
      w.mxResolves (pyDomainOf email) = true →
      is_disposable_domain (pyDomainOf email) = true →
      (validate_email w st email).1 = "Invalid") := by
  refine ⟨?_, ?_, ?_⟩
  · intro w st email h1 h2
    simp [validate_email, h1, h2]
  · intro w st email h1 h2 h3 h4 h5
    simp [validate_email, h1, h2, verify_domain_mx, h3, h4, h5]
  · intro w st email h1 h2 h3 h4 h5
    simp [validate_email, h1, h2, verify_domain_mx, h3, h4, h5]

/-- Witness for C4: concrete fresh-state runs exercising each conjunct. -/
theorem C4_email_short_circuit_order_witness :
    (validate_email W0 ES0 "not-an-email" =
      ("Invalid",
       { ES0 with validation_cache := insertA ES0.validation_cache "not-an-email" "Invalid" }, 0))
    ∧ ((validate_email W0 ES0 "x@nomx.test").1 = "Uncertain")
    ∧ ((validate_email Wmx ES0 "x@mailinator.com").1 = "Invalid") :=
  ⟨C4_email_short_circuit_order.1 W0 ES0 "not-an-email" rfl (by decide),
   C4_email_short_circuit_order.2.1 W0 ES0 "x@nomx.test" rfl (by decide) rfl rfl rfl,
   C4_email_short_circuit_order.2.2 Wmx ES0 "x@mailinator.com" rfl (by decide) rfl rfl
     (by decide)⟩

/-! ### Claim C1: verdict closure under unrecognized AI statuses -/

/-- Claim C1 (code_bug): the source's `result.get('status', 'Uncertain')`
only defaults when the `status` key is missing, so a successful structured
response carrying the unrecognized status `"Maybe"` is returned as-is,
cached as-is, and committed as-is to the `_status` column — contradicting
both the claim and the function's own docstring ("Returns: Status string:
'Valid', 'Uncertain', or 'Invalid'", lines 73-74). -/
theorem C1_unrecognized_status_passthrough :
    ((exVal (verify_data W1 S0 [("Nickname", some "Bob")] ["Nickname"] true false)).map
        (fun p => p.1) = some [("Nickname_status", "Maybe")])
    ∧ ((exVal (verify_data W1 S0 [("Nickname", some "Bob")] ["Nickname"] true false)).map
        (fun p => lookupA p.2.aiSt.ai_cache
          (make_cache_key W1.pyHash "Nickname" "Bob" [("Nickname", some "Bob")] false)) =
        some (some "Maybe"))
    ∧ ("Maybe" ≠ "Valid" ∧ "Maybe" ≠ "Uncertain" ∧ "Maybe" ≠ "Invalid") := by
  refine ⟨by decide, by decide, by decide⟩

/-! ### Claim C3: the quota breaker is a one-way latch -/

/-- Claim C3 (confirmed): (1) an AI call failure whose error text matches a
quota/insufficient or api-key signature leaves the breaker tripped and the
call returns `Uncertain`; (2) once tripped, every subsequent AI Judge call
in the session returns `Uncertain` with zero external calls and the state —
including the breaker — is unchanged (so the breaker is never reset). -/
theorem C3_quota_breaker_latch :
    (∀ (w : World) (st : AIState) (fn fv : String) (row : Record) (deep : Bool) (e : String),
      w.openaiKey ≠ "" → st.ai_quota_exceeded = false →
      lookupA st.ai_cache (make_cache_key w.pyHash fn fv row deep) = none →
      w.aiCall (aiModelOf deep) (aiSystemMessage deep fn)
        (create_verification_prompt fn fv row deep) deep = .error e →
      (hasSub (pyLower e) "quota" = true ∨ hasSub (pyLower e) "insufficient" = true ∨
       hasSub (pyLower e) "api key" = true ∨ hasSub (pyLower e) "apikey" = true) →
      (verify_contact_with_ai w st fn fv row deep).1 = "Uncertain" ∧
      ((verify_contact_with_ai w st fn fv row deep).2.1).ai_quota_exceeded = true)
    ∧ (∀ (w : World) (calls : List AICall) (st : AIState),
      st.ai_quota_exceeded = true →
      runAI w calls st = (calls.map (fun _ => ("Uncertain", 0)), st)) := by
  constructor
  · intro w st fn fv row deep e h1 h2 h3 h4 h5
    by_cases hq : (hasSub (pyLower e) "quota" || hasSub (pyLower e) "insufficient") = true
    · simp [verify_contact_with_ai, h1, h2, h3, h4, hq]
    · have hq1 : hasSub (pyLower e) "quota" = false := by
        cases hx : hasSub (pyLower e) "quota" <;> simp_all
      have hq2 : hasSub (pyLower e) "insufficient" = false := by
        cases hx : hasSub (pyLower e) "insufficient" <;> simp_all
      have hk : (hasSub (pyLower e) "api key" || hasSub (pyLower e) "apikey") = true := by
        rcases h5 with h | h | h | h
        · rw [h] at hq1; cases hq1
        · rw [h] at hq2; cases hq2
        · simp [h]
        · simp [h]
      simp [verify_contact_with_ai, h1, h2, h3, h4, hq1, hq2, hk]
  · intro w calls st hq
    induction calls with
    | nil => simp [runAI]
    | cons c rest ih => simp [runAI, verify_contact_with_ai, hq, ih]

/-- Witness for C3: a concrete quota failure trips the breaker, and a
tripped session answers a two-call fragment with `Uncertain` and zero
external calls while leaving the state untouched. -/
theorem C3_quota_breaker_latch_witness :
    ((verify_contact_with_ai WquotaErr AIS0 "Email" "x" [] false).1 = "Uncertain" ∧
     ((verify_contact_with_ai WquotaErr AIS0 "Email" "x" [] false).2.1).ai_quota_exceeded = true)
    ∧ runAI W0 [⟨"A", "1", [], false⟩, ⟨"B", "2", [], true⟩] ⟨[], true, "m"⟩ =
        ([("Uncertain", 0), ("Uncertain", 0)], ⟨[], true, "m"⟩) :=
  ⟨C3_quota_breaker_latch.1 WquotaErr AIS0 "Email" "x" [] false
      "Error code 429 - insufficient_quota" (by decide) rfl rfl rfl
      (Or.inr (Or.inl (by decide))),
   C3_quota_breaker_latch.2 W0 [⟨"A", "1", [], false⟩, ⟨"B", "2", [], true⟩]
      ⟨[], true, "m"⟩ rfl⟩

/-! ### Claim C7: the AI cache key and derived verdict fields -/

/-- Claim C7 (corrected), counterexample: the cache key hashes
`json.dumps` of the full record context, `_status` entries included.  With
the string length as the hash, two contexts equal except for the value of
their `Email_status` entry produce different cache keys, and after
classifying the first context, classifying the second is not a cache hit:
it issues one external call. -/
theorem C7_counterexample_status_fields_hashed :
    (make_cache_key WlenHash.pyHash "Email" "a@b.co" ctxA false ≠
     make_cache_key WlenHash.pyHash "Email" "a@b.co" ctxB false)
    ∧ ((verify_contact_with_ai WlenHash
          (verify_contact_with_ai WlenHash AIS0 "Email" "a@b.co" ctxA false).2.1
          "Email" "a@b.co" ctxB false).2.2 = 1) := by
  refine ⟨by decide, by decide⟩

/-- Claim C7 (corrected, amended): the cache key is built from the field
name, field value, a hash of the `json.dumps` serialization of the full
record context (including entries whose keys end in `_status`), and the
deep-mode flag.  For an identical context (hence identical key), after one
classification that received a successful structured response, the second
classification is a cache hit: it returns the same status and issues zero
external calls. -/
theorem C7_cache_hit_on_identical_context (w : World) (st : AIState)
    (fn fv : String) (row : Record) (deep : Bool) (js : AIJson)
    (h1 : w.openaiKey ≠ "") (h2 : st.ai_quota_exceeded = false)
    (h3 : w.aiCall (aiModelOf deep) (aiSystemMessage deep fn)
      (create_verification_prompt fn fv row deep) deep = .ok js) :
    (verify_contact_with_ai w
        (verify_contact_with_ai w st fn fv row deep).2.1 fn fv row deep).1 =
      (verify_contact_with_ai w st fn fv row deep).1 ∧
    (verify_contact_with_ai w
        (verify_contact_with_ai w st fn fv row deep).2.1 fn fv row deep).2.2 = 0 := by
  cases hl : lookupA st.ai_cache (make_cache_key w.pyHash fn fv row deep) with
  | some s => simp [verify_contact_with_ai, h1, h2, hl]
  | none =>
    simp [verify_contact_with_ai, h1, h2, hl, h3, lookupA_insertA_self]

/-- Witness for C7's amended theorem at a concrete world and context. -/
theorem C7_cache_hit_witness :
    (verify_contact_with_ai WlenHash
        (verify_contact_with_ai WlenHash AIS0 "Email" "a@b.co" ctxA false).2.1
        "Email" "a@b.co" ctxA false).1 =
      (verify_contact_with_ai WlenHash AIS0 "Email" "a@b.co" ctxA false).1 ∧
    (verify_contact_with_ai WlenHash
        (verify_contact_with_ai WlenHash AIS0 "Email" "a@b.co" ctxA false).2.1
        "Email" "a@b.co" ctxA false).2.2 = 0 :=
  C7_cache_hit_on_identical_context WlenHash AIS0 "Email" "a@b.co" ctxA false
    ⟨some "Valid", some "r"⟩ (by decide) rfl rfl

/-! ### Claim C2: empty-value rule and per-field failure isolation -/

theorem catchUncertain_ok (st : SessState) (x : Except String (String × SessState × Nat)) :
    ∃ out, catchUncertain st x = .ok out := by
  cases x with
  | ok o => exact ⟨o, rfl⟩
  | error e => exact ⟨("Uncertain", st, 0), rfl⟩

/-- Claim C2 (corrected), counterexample: a requested field that is absent
from the record raises `KeyError` at the empty-value check, which sits
before the per-field `try` — the exception propagates out of `verify_data`
and the remaining requested field ("A", present in the record) is never
verified. -/
theorem C2_counterexample_absent_field_aborts :
    verify_data W0 S0 [("A", some "x")] ["Missing", "A"] true false =
      .error "KeyError" := by
  rfl

/-- Claim C2 (corrected, amended): for every requested field that is
present in the record, (1) a missing (NaN) or empty value yields
`Uncertain` with unchanged state and zero external calls, and (2) the
field's verification never raises out of the loop iteration — any failure
inside the branch is caught and degrades the field to `Uncertain`, so it
cannot abort the remaining requested fields.  (A requested field absent
from the record, by contrast, aborts the record — see the
counterexample.) -/
theorem C2_empty_value_and_field_isolation :
    (∀ (w : World) (st : SessState) (row : Record) (col : String)
       (ai deep : Bool) (v : PyVal),
      lookupA row col = some v → (v = none ∨ v = some "") →
      verifyField w st row col ai deep = .ok ("Uncertain", st, 0))
    ∧ (∀ (w : World) (st : SessState) (row : Record) (col : String)
       (ai deep : Bool) (v : PyVal),
      lookupA row col = some v →
      ∃ out, verifyField w st row col ai deep = .ok out) := by
  constructor
  · intro w st row col ai deep v h1 h2
    simp [verifyField, h1, h2]
  · intro w st row col ai deep v h1
    by_cases h2 : v = none ∨ v = some ""
    · exact ⟨("Uncertain", st, 0), by simp [verifyField, h1, h2]⟩
    · simp only [verifyField, h1, h2, if_false]
      exact catchUncertain_ok _ _

/-- Witness for C2's amended theorem: an empty Email cell yields
`Uncertain` with no external call, and a "Last Name" verification whose
branch raises internally (the record has a company but no "First Name"
column, so the sibling access raises `KeyError` inside the `try`) still
returns a verdict instead of aborting. -/
theorem C2_empty_value_and_field_isolation_witness :
    (verifyField W0 S0 [("Email", some "")] "Email" true false =
      .ok ("Uncertain", S0, 0))
    ∧ (∃ out, verifyField W0 S0 [("Last Name", some "Smith"), ("Company", some "Acme")]
        "Last Name" true false = .ok out) :=
  ⟨C2_empty_value_and_field_isolation.1 W0 S0 [("Email", some "")] "Email" true false
      (some "") (by decide) (Or.inr rfl),
   C2_empty_value_and_field_isolation.2 W0 S0
      [("Last Name", some "Smith"), ("Company", some "Acme")] "Last Name" true false
      (some "Smith") (by decide)⟩

/-! ### Claim C5: the company-domain verifier -/

/-- Claim C5 (corrected), counterexample: the format check is
`' ' in domain`, a literal space — not general whitespace.  A domain
containing a tab (and a dot) is not rejected as `Invalid`: with a
successful probe and no company it is `Valid`, where the claim demands
`Invalid`. -/
theorem C5_counterexample_tab_domain :
    ("exa\tmple.com".data.any Char.isWhitespace = true)
    ∧ verify_company_domain WprobeOK "exa\tmple.com" none = ("Valid", 1) := by
  refine ⟨by decide, by decide⟩

/-- Claim C5 (corrected, amended): for every domain value verified as the
company-domain field — with "contains whitespace" narrowed to "contains a
space character", as the source checks only `' ' in domain`: (1) no dot or
a space yields `Invalid` with no probe; (2) a probe exception/timeout
yields `Uncertain`; (3) a probe status of 400 or above yields `Uncertain`;
(4) a successful probe with no company to compare yields `Valid`; (5) a
successful probe with a non-empty company yields `Valid` exactly when the
alphanumeric-only lowercase company is a substring of the alphanumeric-only
lowercase domain, else `Uncertain`. -/
theorem C5_company_domain_branches (w : World) (domain : String)
    (company : Option String) :
    (domain ≠ "" →
      (!(pyContainsChar domain '.') || pyContainsChar domain ' ') = true →
      verify_company_domain w domain company = ("Invalid", 0))
    ∧ (∀ e, pyContainsChar domain '.' = true → pyContainsChar domain ' ' = false →
      w.probeHead ("https://" ++ domain) = .error e →
      verify_company_domain w domain company = ("Uncertain", 1))
    ∧ (∀ code, pyContainsChar domain '.' = true → pyContainsChar domain ' ' = false →
      w.probeHead ("https://" ++ domain) = .ok code → 400 ≤ code →
      verify_company_domain w domain company = ("Uncertain", 1))
    ∧ (∀ code, pyContainsChar domain '.' = true → pyContainsChar domain ' ' = false →
      w.probeHead ("https://" ++ domain) = .ok code → code < 400 →
      (company = none ∨ company = some "") →
      verify_company_domain w domain company = ("Valid", 1))
    ∧ (∀ code c, pyContainsChar domain '.' = true → pyContainsChar domain ' ' = false →
      w.probeHead ("https://" ++ domain) = .ok code → code < 400 →
      company = some c → c ≠ "" →
      verify_company_domain w domain company =
        ((if hasSub (simpleAlnum domain) (simpleAlnum c) then "Valid" else "Uncertain"), 1)) := by
  have hdotne : pyContainsChar domain '.' = true → domain ≠ "" := by
    intro hd he
    subst he
    simp [pyContainsChar] at hd
  refine ⟨?_, ?_, ?_, ?_, ?_⟩
  · intro h1 h2
    simp [verify_company_domain, h1, h2]
  · intro e h1 h2 h3
    simp [verify_company_domain, hdotne h1, h1, h2, h3]
  · intro code h1 h2 h3 h4
    simp [verify_company_domain, hdotne h1, h1, h2, h3, Nat.not_lt.mpr h4]
  · intro code h1 h2 h3 h4 h5
    rcases h5 with h5 | h5 <;>
      simp [verify_company_domain, hdotne h1, h1, h2, h3, h4, h5]
  · intro code c h1 h2 h3 h4 h5 h6
    simp [verify_company_domain, hdotne h1, h1, h2, h3, h4, h5, h6]
    split <;> rfl

/-- Witness for C5's amended theorem: one concrete run per branch. -/
theorem C5_company_domain_branches_witness :
    (verify_company_domain W0 "nodot" none = ("Invalid", 0))
    ∧ (verify_company_domain W0 "a.com" none = ("Uncertain", 1))
    ∧ (verify_company_domain W404 "a.com" none = ("Uncertain", 1))
    ∧ (verify_company_domain WprobeOK "a.com" none = ("Valid", 1))
    ∧ (verify_company_domain WprobeOK "acmecorp.com" (some "Acme Corp") = ("Valid", 1)) :=
  ⟨(C5_company_domain_branches W0 "nodot" none).1 (by decide) (by decide),
   (C5_company_domain_branches W0 "a.com" none).2.1 "offline" (by decide) (by decide) rfl,
   (C5_company_domain_branches W404 "a.com" none).2.2.1 404 (by decide) (by decide) rfl
     (by decide),
   (C5_company_domain_branches WprobeOK "a.com" none).2.2.2.1 200 (by decide) (by decide)
     rfl (by decide) (Or.inl rfl),
   (C5_company_domain_branches WprobeOK "acmecorp.com" (some "Acme Corp")).2.2.2.2 200
     "Acme Corp" (by decide) (by decide) rfl (by decide) rfl (by decide)⟩

/-! ### Claim C8: company-field resolution order -/

/-- Claim C8 (corrected), counterexample: with both company columns present
and non-empty with different values, the resolution loop picks the
`"Company"` value, not the `"Company Name"` value the claim designates. -/
theorem C8_counterexample_company_wins :
    resolveCompany [("Company", some "Alt Inc"), ("Company Name", some "Canonical Inc")] =
      some "Alt Inc"
    ∧ ("Alt Inc" : String) ≠ "Canonical Inc" := by
  refine ⟨by decide, by decide⟩

/-- Claim C8 (corrected, amended): the loop iterates
`["Company", "Company Name"]` in that order, so it prefers the alternate
`"Company"` field and falls back to the canonical `"Company Name"` field:
whenever both are present and non-empty with different values, the
`"Company"` value is the one resolved for evidence gathering. -/
theorem C8_company_resolution_prefers_company (row : Record) (c c' : String)
    (h1 : lookupA row "Company" = some (some c)) (_h2 : c ≠ "")
    (_h3 : lookupA row "Company Name" = some (some c')) (_h4 : c' ≠ "") (_h5 : c ≠ c') :
    resolveCompany row = some c := by
  simp [resolveCompany, h1]

/-- Witness for C8's amended theorem at a concrete record. -/
theorem C8_company_resolution_witness :
    resolveCompany [("Company", some "Alt Inc"), ("Company Name", some "Canonical Inc")] =
      some "Alt Inc" :=
  C8_company_resolution_prefers_company
    [("Company", some "Alt Inc"), ("Company Name", some "Canonical Inc")]
    "Alt Inc" "Canonical Inc" (by decide) (by decide) (by decide) (by decide) (by decide)

/-! ### Claim C6: title/snippet/link in the search evidence text -/

theorem serpEntry_has_title (r : SerpResult) :
    hasSub (serpEntry r) (r.title.getD "") = true := by
  apply hasSub_of_eq_append _ "" _
    ("\n" ++ (r.snippet.getD "" ++ ("\n" ++ (r.link.getD "" ++ "\n\n"))))
  apply strEq_of_data
  simp [serpEntry, strData_append]

theorem serpEntry_has_snippet (r : SerpResult) :
    hasSub (serpEntry r) (r.snippet.getD "") = true := by
  apply hasSub_of_eq_append _ (r.title.getD "" ++ "\n") _
    ("\n" ++ (r.link.getD "" ++ "\n\n"))
  apply strEq_of_data
  simp [serpEntry, strData_append]

theorem serpEntry_has_link (r : SerpResult) :
    hasSub (serpEntry r) (r.link.getD "") = true := by
  apply hasSub_of_eq_append _ (r.title.getD "" ++ "\n" ++ (r.snippet.getD "" ++ "\n")) _ "\n\n"
  apply strEq_of_data
  simp [serpEntry, strData_append]

theorem duckEntry_has_title (r : DuckResult) :
    hasSub (duckEntry r) (r.title.getD "No title") = true := by
  apply hasSub_of_eq_append _ "" _ ("\n" ++ (r.snippet.getD "No snippet" ++ "\n\n"))
  apply strEq_of_data
  simp [duckEntry, strData_append]

theorem duckEntry_has_snippet (r : DuckResult) :
    hasSub (duckEntry r) (r.snippet.getD "No snippet") = true := by
  apply hasSub_of_eq_append _ (r.title.getD "No title" ++ "\n") _ "\n\n"
  apply strEq_of_data
  simp [duckEntry, strData_append]

/-- Claim C6 (corrected), counterexample: the DuckDuckGo fallback emits
`f"{title}\n{snippet}\n\n"` per result — the result's link is never written
into the evidence text. -/
theorem C6_counterexample_duck_omits_link :
    (search_using_duckduckgo Wduck "Acme Corp").1 = "Title A\nSnippet B\n\n"
    ∧ hasSub (search_using_duckduckgo Wduck "Acme Corp").1 "https://link-c.example" = false := by
  refine ⟨by decide, by decide⟩

/-- Claim C6 (corrected, amended): for each of the top 3 organic results,
the credentialed SerpAPI provider's evidence text contains that result's
title, snippet and link, while the public DuckDuckGo fallback's evidence
text contains only the result's title and snippet (its link is omitted). -/
theorem C6_search_text_fields :
    (∀ (w : World) (cname : String) (data : SerpData) (results : List SerpResult)
       (r : SerpResult),
      w.serpApi cname = .ok data → data.organic_results = some results →
      r ∈ results.take 3 →
      hasSub (search_using_serpapi w cname).1 (r.title.getD "") = true ∧
      hasSub (search_using_serpapi w cname).1 (r.snippet.getD "") = true ∧
      hasSub (search_using_serpapi w cname).1 (r.link.getD "") = true)
    ∧ (∀ (w : World) (cname : String) (results : List DuckResult) (r : DuckResult),
      w.duckApi cname = .ok results → r ∈ results.take 3 →
      hasSub (search_using_duckduckgo w cname).1 (r.title.getD "No title") = true ∧
      hasSub (search_using_duckduckgo w cname).1 (r.snippet.getD "No snippet") = true) := by
  constructor
  · intro w cname data results r h1 h2 h3
    have hout : (search_using_serpapi w cname).1 =
        strJoin ((results.take 3).map serpEntry) ++
          (match data.knowledge_graph with
           | some kg => strJoin (kg.map kgEntry)
           | none => "") := by
      simp [search_using_serpapi, h1, h2]
    have hmem : serpEntry r ∈ (results.take 3).map serpEntry :=
      List.mem_map_of_mem serpEntry h3
    rw [hout]
    exact ⟨hasSub_append_left _ _ _
        (hasSub_join_of_mem _ _ _ hmem (serpEntry_has_title r)),
      hasSub_append_left _ _ _
        (hasSub_join_of_mem _ _ _ hmem (serpEntry_has_snippet r)),
      hasSub_append_left _ _ _
        (hasSub_join_of_mem _ _ _ hmem (serpEntry_has_link r))⟩
  · intro w cname results r h1 h2
    have hout : (search_using_duckduckgo w cname).1 =
        strJoin ((results.take 3).map duckEntry) := by
      simp [search_using_duckduckgo, h1]
    have hmem : duckEntry r ∈ (results.take 3).map duckEntry :=
      List.mem_map_of_mem duckEntry h2
    rw [hout]
    exact ⟨hasSub_join_of_mem _ _ _ hmem (duckEntry_has_title r),
      hasSub_join_of_mem _ _ _ hmem (duckEntry_has_snippet r)⟩

/-- Witness for C6's amended theorem at concrete providers and results. -/
theorem C6_search_text_fields_witness :
    (hasSub (search_using_serpapi Wserp "Acme").1 "T2" = true ∧
     hasSub (search_using_serpapi Wserp "Acme").1 "S2" = true ∧
     hasSub (search_using_serpapi Wserp "Acme").1 "L2" = true)
    ∧ (hasSub (search_using_duckduckgo Wduck "Acme").1 "Title A" = true ∧
       hasSub (search_using_duckduckgo Wduck "Acme").1 "Snippet B" = true) :=
  ⟨C6_search_text_fields.1 Wserp "Acme"
      ⟨some [⟨some "T1", some "S1", some "L1"⟩, ⟨some "T2", some "S2", some "L2"⟩,
             ⟨some "T3", some "S3", some "L3"⟩], none⟩
      [⟨some "T1", some "S1", some "L1"⟩, ⟨some "T2", some "S2", some "L2"⟩,
       ⟨some "T3", some "S3", some "L3"⟩]
      ⟨some "T2", some "S2", some "L2"⟩ rfl rfl (by decide),
   C6_search_text_fields.2 Wduck "Acme"
      [⟨some "Title A", some "Snippet B", some "https://link-c.example"⟩]
      ⟨some "Title A", some "Snippet B", some "https://link-c.example"⟩ rfl (by decide)⟩

end DataVerif
